import Mathlib

/-
  Shallow embedding of src/webhook_server.py (Midtrans webhook listener and
  accounting processor).

  The relational store (supabase) is modelled as an explicit record of tables
  (`DB`).  Each storage call made by the python code is numbered in program
  order by a call counter; a schedule `faults : List Nat` lists the indices of
  calls whose `.execute()` raises an exception.  Raised exceptions are caught
  by the blanket `except` handlers of the source, which is modelled by the
  functions returning the failure value together with the state reached at the
  point of the raise.  A write trace (`DB.writes`) records every mutating
  storage call in the order it was issued.
-/

/-- One row of the `products` table.  Optional fields model SQL NULL /
missing dictionary keys as seen through `dict.get`. -/
structure Product where
  id : Nat
  cost_price : Option Int
  inventory_account_code : Option String
  hpp_account_code : Option String
  stock : Option Int
deriving DecidableEq

/-- One row of the `order_items` table (the columns the code reads). -/
structure OrderItemRow where
  product_id : Nat
  quantity : Int
deriving DecidableEq

/-- One row of the `orders` table (the columns the code reads or writes). -/
structure OrderRow where
  id : Int
  total_amount : Int
  user_id : Option Nat
  status : Option String
  midtrans_order_id : Option String
deriving DecidableEq

/-- One row of the `journal_entries` table. -/
structure JournalEntryRow where
  id : Nat
  order_id : Int
  transaction_date : String
  description : String
  user_id : Option Nat
  entry_type : String
deriving DecidableEq

/-- One row of the `journal_lines` table.  The account code is optional
because the code copies a possibly-NULL column value into the line dict. -/
structure JournalLine where
  journal_id : Nat
  account_code : Option String
  debit_amount : Int
  credit_amount : Int
deriving DecidableEq

/-- One row of the `inventory_movements` table. -/
structure InventoryMovement where
  product_id : Nat
  movement_date : String
  movement_type : String
  quantity_change : Int
  unit_cost : Int
  reference_id : String
deriving DecidableEq

/-- A mutating storage call, recorded in program order. -/
inductive StorageWrite where
  | insertJournalEntry (order_id : Int)
  | updateProductStock (product_id : Nat) (new_stock : Int)
  | insertJournalLines (lines : List JournalLine)
  | insertInventoryMovements (movements : List InventoryMovement)
  | updateOrder (order_id : Int) (status : Option String) (ref : Option String)
deriving DecidableEq

/-- The relational store: the tables touched by the webhook server, the
journal-header id sequence, and the trace of mutating calls issued so far.
`order_items` pairs each item row with the `order_id` column it belongs to. -/
structure DB where
  journal_entries : List JournalEntryRow
  orders : List OrderRow
  order_items : List (Int × OrderItemRow)
  products : List Product
  journal_lines : List JournalLine
  inventory_movements : List InventoryMovement
  next_journal_id : Nat
  writes : List StorageWrite
deriving DecidableEq

/-- `item.get("products")` followed by the cost extraction
`product_data.get("cost_price", 0) or 0` (missing key, NULL and 0 all give 0). -/
def itemCost (pd : Option Product) : Int :=
  match pd with
  | none => 0
  | some p => p.cost_price.getD 0

/-- `product_data.get("inventory_account_code", '1-1200')`: the fallback is
used only when the dict is empty (unresolved product); a resolved row always
carries the column, possibly NULL. -/
def itemInvAcc (pd : Option Product) : Option String :=
  match pd with
  | none => some "1-1200"
  | some p => p.inventory_account_code

/-- `product_data.get("hpp_account_code", '5-1100')`, same convention. -/
def itemHppAcc (pd : Option Product) : Option String :=
  match pd with
  | none => some "5-1100"
  | some p => p.hpp_account_code

/-- `current_stock = product_data.get("stock")` then
`if current_stock is None: current_stock = 0`. -/
def itemStock (pd : Option Product) : Int :=
  (match pd with
   | none => none
   | some p => p.stock).getD 0

/-- The stock value written for one order line:
`new_stock = current_stock - quantity_sold; if new_stock < 0: new_stock = 0`. -/
def itemNewStock (item : OrderItemRow) (pd : Option Product) : Int :=
  let ns := itemStock pd - item.quantity
  if ns < 0 then 0 else ns

/-- The order snapshot taken by the single
`orders.select("*, order_items(*, products(*))")` query: every item row of the
order, each joined with its product row (none when the relation cannot be
resolved). -/
def snapshotItems (db : DB) (oid : Int) : List (OrderItemRow × Option Product) :=
  (db.order_items.filter (fun p => p.fst == oid)).map
    (fun p => (p.snd, db.products.find? (fun pr => pr.id == p.snd.product_id)))

/-- The item loop of `record_sales_journal` (section 5 of the python code):
accumulates HPP journal lines and inventory movements, and issues one
product-stock update per line with positive quantity and a resolved product.
A faulted update call raises, modelled by the `.error` result carrying the
state at the raise. -/
def processItems (faults : List Nat) (today : String) (order_id : Int) (jid : Nat) :
    List (OrderItemRow × Option Product) → List JournalLine → List InventoryMovement →
    DB → Nat →
    Except (DB × Nat) (List JournalLine × List InventoryMovement × DB × Nat)
  | [], ls, ms, db, c => .ok (ls, ms, db, c)
  | (item, pd) :: rest, ls, ms, db, c =>
    let product_id := item.product_id
    let quantity_sold := item.quantity
    let cost_price := itemCost pd
    if quantity_sold > 0 then
      let cost_of_sale := quantity_sold * cost_price
      let ls := if cost_price > 0 then
          ls ++ [⟨jid, itemHppAcc pd, cost_of_sale, 0⟩,
                 ⟨jid, itemInvAcc pd, 0, cost_of_sale⟩]
        else ls
      let ms := ms ++ [⟨product_id, today, "ISSUE", -quantity_sold, cost_price,
                        "ORDER-" ++ toString order_id⟩]
      match pd with
      | some _ =>
        if faults.contains c then .error (db, c + 1)
        else
          let db := { db with
            products := db.products.map
              (fun pr => if pr.id == product_id
                         then { pr with stock := some (itemNewStock item pd) } else pr),
            writes := db.writes ++ [.updateProductStock product_id (itemNewStock item pd)] }
          processItems faults today order_id jid rest ls ms db (c + 1)
      | none => processItems faults today order_id jid rest ls ms db c
    else
      processItems faults today order_id jid rest ls ms db c

/-- `record_sales_journal(order_id)`: the whole function, including the guard,
the snapshot read, the header insert, the item loop and the two batch inserts,
with the surrounding `try/except` returning `False` on any raised storage
call.  Returns the boolean result, the resulting store, and the call counter. -/
def record_sales_journal (faults : List Nat) (today : String) (order_id : Int)
    (db : DB) (c : Nat) : Bool × DB × Nat :=
  if faults.contains c then (false, db, c + 1)
  else
    let existing := db.journal_entries.filter (fun j => j.order_id == order_id)
    let c := c + 1
    if !existing.isEmpty then (true, db, c)
    else
      if faults.contains c then (false, db, c + 1)
      else
        let orderRows := db.orders.filter (fun o => o.id == order_id)
        let c := c + 1
        match orderRows with
        | [] => (false, db, c)
        | order :: _ =>
          let total_revenue := order.total_amount
          let items := snapshotItems db order_id
          if faults.contains c then (false, db, c + 1)
          else
            let jid := db.next_journal_id
            let entry : JournalEntryRow :=
              { id := jid, order_id := order_id, transaction_date := today,
                description := "Jurnal Penjualan Tunai Order ID: " ++ toString order_id,
                user_id := order.user_id, entry_type := "REGULAR" }
            let db := { db with
              journal_entries := db.journal_entries ++ [entry],
              next_journal_id := jid + 1,
              writes := db.writes ++ [.insertJournalEntry order_id] }
            let c := c + 1
            let ls : List JournalLine :=
              [⟨jid, some "1-1100", total_revenue, 0⟩,
               ⟨jid, some "4-1100", 0, total_revenue⟩]
            match processItems faults today order_id jid items ls [] db c with
            | .error (db, c) => (false, db, c)
            | .ok (ls, ms, db, c) =>
              if ls.isEmpty then
                if ms.isEmpty then (true, db, c)
                else if faults.contains c then (false, db, c + 1)
                else
                  (true, { db with
                     inventory_movements := db.inventory_movements ++ ms,
                     writes := db.writes ++ [.insertInventoryMovements ms] }, c + 1)
              else if faults.contains c then (false, db, c + 1)
              else
                let db := { db with
                  journal_lines := db.journal_lines ++ ls,
                  writes := db.writes ++ [.insertJournalLines ls] }
                let c := c + 1
                if ms.isEmpty then (true, db, c)
                else if faults.contains c then (false, db, c + 1)
                else
                  (true, { db with
                     inventory_movements := db.inventory_movements ++ ms,
                     writes := db.writes ++ [.insertInventoryMovements ms] }, c + 1)

/-- The inbound JSON payload fields the handler reads. -/
structure Payload where
  order_id : Option String
  transaction_status : Option String
  transaction_id : Option String
deriving DecidableEq

/-- The transport-level outcome of the handler. -/
inductive WebhookResult where
  | ok (journal_processed : Bool)
  | httpError (code : Nat)
deriving DecidableEq

/-- Digits of a decimal literal to a natural number. -/
def digitsToNat (cs : List Char) : Nat :=
  cs.foldl (fun a ch => a * 10 + (ch.toNat - 48)) 0

/-- Strings manipulated by the handler are viewed as their character lists;
this strips whitespace from both ends, as `int(str)` does. -/
def pyStrip (cs : List Char) : List Char :=
  ((cs.dropWhile Char.isWhitespace).reverse.dropWhile Char.isWhitespace).reverse

/-- The python `int(str)` conversion on the strings this server can feed it:
optional surrounding whitespace, an optional sign, then at least one decimal
digit; anything else raises `ValueError`, modelled as `none`. -/
def pyInt (s : List Char) : Option Int :=
  let cs := pyStrip s
  match cs with
  | [] => none
  | ch :: rest =>
    if ch == '-' then
      if rest.isEmpty then none
      else if rest.all Char.isDigit then some (-(digitsToNat rest : Int)) else none
    else if ch == '+' then
      if rest.isEmpty then none
      else if rest.all Char.isDigit then some (digitsToNat rest : Int) else none
    else if cs.all Char.isDigit then some (digitsToNat cs : Int) else none

/-- The head of `raw.split("-")`: the characters before the first `-`. -/
def headBeforeSep : List Char → List Char
  | [] => []
  | ch :: rest => if ch == '-' then [] else ch :: headBeforeSep rest

/-- Lines 134 to 140 of the handler: `str(payload.get("order_id", ""))`, then
keep the part before the first `-` when one is present (`split("-")[0]`),
otherwise the whole string. -/
def extract_order_id (p : Payload) : List Char :=
  let raw := (p.order_id.getD "").toList
  if raw.contains '-' then headBeforeSep raw else raw

/-- The `orders` table update issued at the end of the handler:
`update({"status": new_status, "midtrans_order_id": transaction_id}).eq("id", oid)`. -/
def orderUpdatedDB (db : DB) (oid : Int) (ns tid : Option String) : DB :=
  { db with
    orders := db.orders.map
      (fun o => if o.id == oid then { o with status := ns, midtrans_order_id := tid } else o),
    writes := db.writes ++ [.updateOrder oid ns tid] }

/-- The terminal order update as a storage call that may fault. -/
def update_order_step (faults : List Nat) (oid : Int) (ns tid : Option String)
    (db : DB) (c : Nat) : Option (DB × Nat) :=
  if faults.contains c then none
  else some (orderUpdatedDB db oid ns tid, c + 1)

/-- The `/midtrans/notification` handler: extraction of the order identifier,
status mapping, conditional journal pipeline, terminal order update.  Every
exception raised inside the body, including the `HTTPException(400)` for a
missing identifier and the `ValueError` of `int()`, is caught by the blanket
`except` and surfaced as HTTP 500. -/
def midtrans_notification (faults : List Nat) (today : String) (p : Payload)
    (db : DB) (c : Nat) : WebhookResult × DB × Nat :=
  let order_id := extract_order_id p
  let transaction_status := p.transaction_status
  let transaction_id := p.transaction_id
  if order_id.isEmpty then (.httpError 500, db, c)
  else if transaction_status == some "capture" || transaction_status == some "settlement" then
    match pyInt order_id with
    | none => (.httpError 500, db, c)
    | some oid =>
      let r := record_sales_journal faults today oid db c
      match update_order_step faults oid (some "settle") transaction_id r.2.1 r.2.2 with
      | none => (.httpError 500, r.2.1, r.2.2 + 1)
      | some (db, c) => (.ok r.1, db, c)
  else
    let new_status :=
      if transaction_status == some "deny" || transaction_status == some "expire"
         || transaction_status == some "cancel"
      then some "failed" else transaction_status
    match pyInt order_id with
    | none => (.httpError 500, db, c)
    | some oid =>
      match update_order_step faults oid new_status transaction_id db c with
      | none => (.httpError 500, db, c + 1)
      | some (db, c) => (.ok false, db, c)

/-
  Characterisation of the composed journal, movements and stock writes of a
  run, read off the item loop.
-/

/-- The two fixed cash and sales lines appended in section 4 of the code. -/
def cashLines (jid : Nat) (total : Int) : List JournalLine :=
  [⟨jid, some "1-1100", total, 0⟩, ⟨jid, some "4-1100", 0, total⟩]

/-- The HPP journal lines contributed by the item loop. -/
def loopLines (jid : Nat) : List (OrderItemRow × Option Product) → List JournalLine
  | [] => []
  | (item, pd) :: rest =>
    (if item.quantity > 0 then
       if itemCost pd > 0 then
         [⟨jid, itemHppAcc pd, item.quantity * itemCost pd, 0⟩,
          ⟨jid, itemInvAcc pd, 0, item.quantity * itemCost pd⟩]
       else []
     else []) ++ loopLines jid rest

/-- The inventory movements contributed by the item loop. -/
def loopMovements (today : String) (order_id : Int) :
    List (OrderItemRow × Option Product) → List InventoryMovement
  | [] => []
  | (item, pd) :: rest =>
    (if item.quantity > 0 then
       [⟨item.product_id, today, "ISSUE", -item.quantity, itemCost pd,
         "ORDER-" ++ toString order_id⟩]
     else []) ++ loopMovements today order_id rest

/-- The product-stock updates issued by the item loop, in program order:
one per line with positive quantity and a resolved product. -/
def loopStockWrites : List (OrderItemRow × Option Product) → List StorageWrite
  | [] => []
  | (item, pd) :: rest =>
    (if item.quantity > 0 then
       match pd with
       | some _ => [.updateProductStock item.product_id (itemNewStock item pd)]
       | none => []
     else []) ++ loopStockWrites rest

/-- Effect of one stock update on the `products` table. -/
def applyStockWrite (ps : List Product) (w : StorageWrite) : List Product :=
  match w with
  | .updateProductStock pid ns =>
    ps.map (fun pr => if pr.id == pid then { pr with stock := some ns } else pr)
  | _ => ps

/-- Effect of a sequence of stock updates on the `products` table. -/
def applyStockWrites (ws : List StorageWrite) (ps : List Product) : List Product :=
  ws.foldl applyStockWrite ps

/-- Sum of the debit amounts of a list of journal lines. -/
def sumDebit (ls : List JournalLine) : Int :=
  (ls.map JournalLine.debit_amount).sum

/-- Sum of the credit amounts of a list of journal lines. -/
def sumCredit (ls : List JournalLine) : Int :=
  (ls.map JournalLine.credit_amount).sum

/-- With no faulted calls the item loop cannot raise: it returns the
accumulated lines and movements extended by its contributions, and the store
with the per-line stock updates applied and traced. -/
theorem processItems_ok_of_nil (today : String) (oid : Int) (jid : Nat) :
    ∀ (items : List (OrderItemRow × Option Product)) (ls : List JournalLine)
      (ms : List InventoryMovement) (db : DB) (c : Nat),
    ∃ c', processItems [] today oid jid items ls ms db c =
      .ok (ls ++ loopLines jid items, ms ++ loopMovements today oid items,
           { db with
             products := applyStockWrites (loopStockWrites items) db.products,
             writes := db.writes ++ loopStockWrites items }, c') := by
  intro items
  induction items with
  | nil =>
    intro ls ms db c
    exact ⟨c, by simp [processItems, loopLines, loopMovements, loopStockWrites,
                       applyStockWrites]⟩
  | cons hd rest ih =>
    obtain ⟨item, pd⟩ := hd
    intro ls ms db c
    by_cases hq : item.quantity > 0
    · cases pd with
      | none =>
        obtain ⟨c', hc'⟩ := ih
          (if itemCost none > 0 then
             ls ++ [⟨jid, itemHppAcc none, item.quantity * itemCost none, 0⟩,
                    ⟨jid, itemInvAcc none, 0, item.quantity * itemCost none⟩]
           else ls)
          (ms ++ [⟨item.product_id, today, "ISSUE", -item.quantity, itemCost none,
                   "ORDER-" ++ toString oid⟩]) db c
        refine ⟨c', ?_⟩
        simp only [processItems, if_pos hq, hc', loopLines, loopMovements,
                   loopStockWrites, if_pos hq]
        split <;> simp_all [List.append_assoc]
      | some p =>
        obtain ⟨c', hc'⟩ := ih
          (if itemCost (some p) > 0 then
             ls ++ [⟨jid, itemHppAcc (some p), item.quantity * itemCost (some p), 0⟩,
                    ⟨jid, itemInvAcc (some p), 0, item.quantity * itemCost (some p)⟩]
           else ls)
          (ms ++ [⟨item.product_id, today, "ISSUE", -item.quantity, itemCost (some p),
                   "ORDER-" ++ toString oid⟩])
          { db with
            products := db.products.map
              (fun pr => if pr.id == item.product_id
                         then { pr with stock := some (itemNewStock item (some p)) } else pr),
            writes := db.writes ++ [.updateProductStock item.product_id
                                      (itemNewStock item (some p))] }
          (c + 1)
        refine ⟨c', ?_⟩
        simp only [processItems, if_pos hq, List.contains, List.elem_nil,
                   Bool.false_eq_true, if_false, hc', loopLines, loopMovements,
                   loopStockWrites, applyStockWrites, List.foldl_cons, applyStockWrite]
        split <;> simp_all [List.append_assoc, applyStockWrites] <;>
          (congr 1
           apply List.map_congr_left
           intro pr _
           by_cases h : pr.id = item.product_id <;> simp [h])
    · obtain ⟨c', hc'⟩ := ih ls ms db c
      refine ⟨c', ?_⟩
      simp only [processItems, if_neg hq, hc', loopLines, loopMovements,
                 loopStockWrites, if_neg hq]
      simp [List.append_assoc]

/-- The store produced by a fully successful run of `record_sales_journal`
on an order whose header row is `o1`: header appended, per-line stock
updates applied, composed lines and movements batch-inserted, all traced in
program order. -/
def rsjSuccessDB (today : String) (oid : Int) (db : DB) (o1 : OrderRow) : DB :=
  let jid := db.next_journal_id
  let items := snapshotItems db oid
  let ls := cashLines jid o1.total_amount ++ loopLines jid items
  let ms := loopMovements today oid items
  { db with
    journal_entries := db.journal_entries ++
      [⟨jid, oid, today, "Jurnal Penjualan Tunai Order ID: " ++ toString oid,
        o1.user_id, "REGULAR"⟩],
    next_journal_id := jid + 1,
    products := applyStockWrites (loopStockWrites items) db.products,
    journal_lines := db.journal_lines ++ ls,
    inventory_movements := db.inventory_movements ++ ms,
    writes := db.writes ++ [.insertJournalEntry oid] ++ loopStockWrites items
      ++ [.insertJournalLines ls]
      ++ (if ms.isEmpty then [] else [.insertInventoryMovements ms]) }

/-- Idempotency guard: when a journal entry for the order already exists and
the guard read itself does not fault, `record_sales_journal` returns `true`
and leaves the store untouched (no further storage writes at all). -/
theorem rsj_guard_hit (faults : List Nat) (today : String) (oid : Int)
    (db : DB) (c : Nat) (h0 : ¬ faults.contains c)
    (h : db.journal_entries.filter (fun j => j.order_id == oid) ≠ []) :
    record_sales_journal faults today oid db c = (true, db, c + 1) := by
  have hne : (db.journal_entries.filter (fun j => j.order_id == oid)).isEmpty = false := by
    cases hfe : db.journal_entries.filter (fun j => j.order_id == oid) with
    | nil => exact absurd hfe h
    | cons a l => rfl
  have h0m : c ∉ faults := by simpa using h0
  simp [record_sales_journal, h0, h0m, hne]

/-- With no faulted calls, no existing journal entry, and the order resolvable
(`o1` the first row matching the identifier), `record_sales_journal` returns
`true` and transforms the store exactly as `rsjSuccessDB` describes. -/
theorem rsj_success (today : String) (oid : Int) (db : DB) (c : Nat)
    (o1 : OrderRow) (os : List OrderRow)
    (hno : db.journal_entries.filter (fun j => j.order_id == oid) = [])
    (hord : db.orders.filter (fun o => o.id == oid) = o1 :: os) :
    ∃ c', record_sales_journal [] today oid db c =
      (true, rsjSuccessDB today oid db o1, c') := by
  obtain ⟨c', hpi⟩ := processItems_ok_of_nil today oid db.next_journal_id
    (snapshotItems db oid)
    [⟨db.next_journal_id, some "1-1100", o1.total_amount, 0⟩,
     ⟨db.next_journal_id, some "4-1100", 0, o1.total_amount⟩] []
    { db with
      journal_entries := db.journal_entries ++
        [⟨db.next_journal_id, oid, today,
          "Jurnal Penjualan Tunai Order ID: " ++ toString oid, o1.user_id, "REGULAR"⟩],
      next_journal_id := db.next_journal_id + 1,
      writes := db.writes ++ [.insertJournalEntry oid] }
    (c + 3)
  by_cases hms : (loopMovements today oid (snapshotItems db oid)).isEmpty
  · have hms' : loopMovements today oid (snapshotItems db oid) = [] :=
      List.isEmpty_iff.mp hms
    refine ⟨c' + 1, ?_⟩
    simp [record_sales_journal, hno, hord, hpi, rsjSuccessDB, cashLines, hms, hms']
  · refine ⟨c' + 2, ?_⟩
    simp [record_sales_journal, hno, hord, hpi, rsjSuccessDB, cashLines, hms]

/-- The HPP lines of the item loop are balanced: every line with a positive
cost contributes an equal debit and credit. -/
theorem loopLines_balance (jid : Nat) :
    ∀ items : List (OrderItemRow × Option Product),
    sumDebit (loopLines jid items) = sumCredit (loopLines jid items) := by
  intro items
  induction items with
  | nil => rfl
  | cons hd rest ih =>
    obtain ⟨item, pd⟩ := hd
    simp only [loopLines]
    split
    · split
      · simp_all [sumDebit, sumCredit]
      · simpa using ih
    · simpa using ih

/-- One unfolding step of the item loop on a cons cell (definitional). -/
theorem processItems_cons (faults : List Nat) (today : String) (oid : Int) (jid : Nat)
    (item : OrderItemRow) (pd : Option Product)
    (rest : List (OrderItemRow × Option Product)) (ls : List JournalLine)
    (ms : List InventoryMovement) (db : DB) (c : Nat) :
    processItems faults today oid jid ((item, pd) :: rest) ls ms db c =
      if item.quantity > 0 then
        let ls' := if itemCost pd > 0 then
            ls ++ [⟨jid, itemHppAcc pd, item.quantity * itemCost pd, 0⟩,
                   ⟨jid, itemInvAcc pd, 0, item.quantity * itemCost pd⟩]
          else ls
        let ms' := ms ++ [⟨item.product_id, today, "ISSUE", -item.quantity, itemCost pd,
                           "ORDER-" ++ toString oid⟩]
        match pd with
        | some _ =>
          if faults.contains c then .error (db, c + 1)
          else processItems faults today oid jid rest ls' ms'
            { db with
              products := db.products.map
                (fun pr => if pr.id == item.product_id
                           then { pr with stock := some (itemNewStock item pd) } else pr),
              writes := db.writes ++
                [.updateProductStock item.product_id (itemNewStock item pd)] }
            (c + 1)
        | none => processItems faults today oid jid rest ls' ms' db c
      else processItems faults today oid jid rest ls ms db c := rfl

/-- Every HPP line of the item loop carries the journal id of the header. -/
theorem loopLines_jid (jid : Nat) :
    ∀ items : List (OrderItemRow × Option Product),
    ∀ l ∈ loopLines jid items, l.journal_id = jid := by
  intro items
  induction items with
  | nil => intro l hl; cases hl
  | cons hd rest ih =>
    obtain ⟨item, pd⟩ := hd
    intro l hl
    simp only [loopLines, List.mem_append] at hl
    rcases hl with hl | hl
    · split at hl
      · split at hl
        · simp only [List.mem_cons, List.not_mem_nil, or_false] at hl
          rcases hl with h | h <;> subst h <;> rfl
        · cases hl
      · cases hl
    · exact ih l hl

/-- The store reached by the item loop, whether it completed or raised. -/
def piDB : Except (DB × Nat) (List JournalLine × List InventoryMovement × DB × Nat) → DB
  | .ok (_, _, db, _) => db
  | .error (db, _) => db

/-- The item loop touches only the `products` table and the write trace, and
every write it adds is a product-stock update drawn from `loopStockWrites`:
all other tables, and the journal-header id sequence, are left unchanged,
whether the loop completes or raises. -/
theorem processItems_effects (faults : List Nat) (today : String) (oid : Int) (jid : Nat) :
    ∀ (items : List (OrderItemRow × Option Product)) (ls : List JournalLine)
      (ms : List InventoryMovement) (db : DB) (c : Nat),
    (piDB (processItems faults today oid jid items ls ms db c)).journal_entries
        = db.journal_entries ∧
    (piDB (processItems faults today oid jid items ls ms db c)).journal_lines
        = db.journal_lines ∧
    (piDB (processItems faults today oid jid items ls ms db c)).inventory_movements
        = db.inventory_movements ∧
    (piDB (processItems faults today oid jid items ls ms db c)).orders = db.orders ∧
    (piDB (processItems faults today oid jid items ls ms db c)).next_journal_id
        = db.next_journal_id ∧
    ∃ W, (piDB (processItems faults today oid jid items ls ms db c)).writes
        = db.writes ++ W ∧ ∀ w ∈ W, w ∈ loopStockWrites items := by
  intro items
  induction items with
  | nil =>
    intro ls ms db c
    exact ⟨rfl, rfl, rfl, rfl, rfl, [], by simp [processItems, piDB],
           fun w hw => absurd hw (List.not_mem_nil w)⟩
  | cons hd rest ih =>
    obtain ⟨item, pd⟩ := hd
    intro ls ms db c
    by_cases hq : item.quantity > 0
    · cases pd with
      | none =>
        obtain ⟨h1, h2, h3, h4, h5, W, hW, hWmem⟩ := ih
          (if itemCost none > 0 then
             ls ++ [⟨jid, itemHppAcc none, item.quantity * itemCost none, 0⟩,
                    ⟨jid, itemInvAcc none, 0, item.quantity * itemCost none⟩]
           else ls)
          (ms ++ [⟨item.product_id, today, "ISSUE", -item.quantity, itemCost none,
                   "ORDER-" ++ toString oid⟩]) db c
        rw [processItems_cons, if_pos hq]
        exact ⟨h1, h2, h3, h4, h5, W, hW, fun w hw => by
          have hmem := hWmem w hw
          simp only [loopStockWrites, if_pos hq, List.nil_append]
          exact hmem⟩
      | some p =>
        by_cases hf : faults.contains c
        · have hfm : c ∈ faults := by simpa using hf
          rw [processItems_cons, if_pos hq]
          refine ⟨?_, ?_, ?_, ?_, ?_, [], ?_, fun w hw => absurd hw (List.not_mem_nil w)⟩
            <;> simp [hf, hfm, piDB]
        · obtain ⟨h1, h2, h3, h4, h5, W, hW, hWmem⟩ := ih
            (if itemCost (some p) > 0 then
               ls ++ [⟨jid, itemHppAcc (some p), item.quantity * itemCost (some p), 0⟩,
                      ⟨jid, itemInvAcc (some p), 0, item.quantity * itemCost (some p)⟩]
             else ls)
            (ms ++ [⟨item.product_id, today, "ISSUE", -item.quantity, itemCost (some p),
                     "ORDER-" ++ toString oid⟩])
            { db with
              products := db.products.map
                (fun pr => if pr.id == item.product_id
                           then { pr with stock := some (itemNewStock item (some p)) } else pr),
              writes := db.writes ++ [.updateProductStock item.product_id
                                        (itemNewStock item (some p))] }
            (c + 1)
          rw [processItems_cons, if_pos hq]
          simp only [hf, Bool.false_eq_true, if_false]
          refine ⟨h1, h2, h3, h4, h5,
                  .updateProductStock item.product_id (itemNewStock item (some p)) :: W,
                  ?_, ?_⟩
          · rw [hW]; simp
          · intro w hw
            simp only [loopStockWrites, if_pos hq]
            simp only [List.mem_cons] at hw
            rcases hw with hw | hw
            · subst hw; simp
            · exact List.mem_append_right _ (hWmem w hw)
    · obtain ⟨h1, h2, h3, h4, h5, W, hW, hWmem⟩ := ih ls ms db c
      rw [processItems_cons, if_neg hq]
      exact ⟨h1, h2, h3, h4, h5, W, hW, fun w hw => by
        have hmem := hWmem w hw
        simp only [loopStockWrites, if_neg hq, List.nil_append]
        exact hmem⟩

/-- The per-line stock computation is exactly the floored subtraction. -/
theorem itemNewStock_eq_max (item : OrderItemRow) (pd : Option Product) :
    itemNewStock item pd = max 0 (itemStock pd - item.quantity) := by
  unfold itemNewStock
  rcases lt_or_ge (itemStock pd - item.quantity) 0 with h | h
  · simp [h, max_eq_left h.le]
  · simp [not_lt.mpr h, max_eq_right h]

/-- The per-line stock value written is never negative. -/
theorem itemNewStock_nonneg (item : OrderItemRow) (pd : Option Product) :
    0 ≤ itemNewStock item pd := by
  rw [itemNewStock_eq_max]; exact le_max_left _ _

/-- Every stock update of the item loop comes from a snapshot line with
positive quantity and a resolved product, and writes that line's floored
stock value. -/
theorem loopStockWrites_mem :
    ∀ (items : List (OrderItemRow × Option Product)) (pid : Nat) (ns : Int),
    StorageWrite.updateProductStock pid ns ∈ loopStockWrites items →
    ∃ ip ∈ items, 0 < ip.1.quantity ∧ ip.2 ≠ none ∧
      pid = ip.1.product_id ∧ ns = itemNewStock ip.1 ip.2 := by
  intro items
  induction items with
  | nil => intro pid ns h; cases h
  | cons hd rest ih =>
    obtain ⟨item, pd⟩ := hd
    intro pid ns h
    simp only [loopStockWrites, List.mem_append] at h
    rcases h with h | h
    · cases pd with
      | none =>
        split at h
        · cases h
        · cases h
      | some p =>
        split at h
        · rename_i hq
          simp only [List.mem_singleton, StorageWrite.updateProductStock.injEq] at h
          exact ⟨(item, some p), List.mem_cons_self _ _, hq, by simp, h.1, h.2⟩
        · cases h
    · obtain ⟨ip, hip, h2⟩ := ih pid ns h
      exact ⟨ip, List.mem_cons_of_mem _ hip, h2⟩

/-- `processItems_effects`, specialised to a loop run that raised. -/
theorem processItems_err_effects {faults : List Nat} {today : String} {oid : Int}
    {jid : Nat} {items : List (OrderItemRow × Option Product)} {ls : List JournalLine}
    {ms : List InventoryMovement} {db : DB} {c : Nat} {db' : DB} {c' : Nat}
    (h : processItems faults today oid jid items ls ms db c = .error (db', c')) :
    db'.journal_entries = db.journal_entries ∧ db'.journal_lines = db.journal_lines ∧
    db'.inventory_movements = db.inventory_movements ∧ db'.orders = db.orders ∧
    db'.next_journal_id = db.next_journal_id ∧
    ∃ W, db'.writes = db.writes ++ W ∧ ∀ w ∈ W, w ∈ loopStockWrites items := by
  have eff := processItems_effects faults today oid jid items ls ms db c
  rw [h] at eff
  simpa [piDB] using eff

/-- `processItems_effects`, specialised to a loop run that completed. -/
theorem processItems_ok_effects {faults : List Nat} {today : String} {oid : Int}
    {jid : Nat} {items : List (OrderItemRow × Option Product)}
    {ls ls' : List JournalLine} {ms ms' : List InventoryMovement}
    {db db' : DB} {c c' : Nat}
    (h : processItems faults today oid jid items ls ms db c = .ok (ls', ms', db', c')) :
    db'.journal_entries = db.journal_entries ∧ db'.journal_lines = db.journal_lines ∧
    db'.inventory_movements = db.inventory_movements ∧ db'.orders = db.orders ∧
    db'.next_journal_id = db.next_journal_id ∧
    ∃ W, db'.writes = db.writes ++ W ∧ ∀ w ∈ W, w ∈ loopStockWrites items := by
  have eff := processItems_effects faults today oid jid items ls ms db c
  rw [h] at eff
  simpa [piDB] using eff

/-- Every product-stock update present in the write trace after any run of
`record_sales_journal` (any fault schedule) was either already there, or is
one of the per-line updates the loop computes from the order snapshot. -/
theorem rsj_stock_update_mem (faults : List Nat) (today : String) (oid : Int)
    (db : DB) (c : Nat) (pid : Nat) (ns : Int)
    (hm : StorageWrite.updateProductStock pid ns
            ∈ (record_sales_journal faults today oid db c).2.1.writes) :
    StorageWrite.updateProductStock pid ns ∈ db.writes ∨
    StorageWrite.updateProductStock pid ns ∈ loopStockWrites (snapshotItems db oid) := by
  simp only [record_sales_journal] at hm
  split at hm
  · exact Or.inl hm
  · split at hm
    · exact Or.inl hm
    · split at hm
      · exact Or.inl hm
      · split at hm
        · exact Or.inl hm
        · rename_i order rest horder
          split at hm
          · exact Or.inl hm
          · split at hm
            · rename_i db1 c1 heq
              obtain ⟨-, -, -, -, -, W, hW, hWsub⟩ := processItems_err_effects heq
              rw [hW] at hm
              simp only [List.mem_append] at hm
              rcases hm with (hm | hm) | hm
              · exact Or.inl hm
              · simp at hm
              · exact Or.inr (hWsub _ hm)
            · rename_i ls1 ms1 db1 c1 heq
              obtain ⟨-, -, -, -, -, W, hW, hWsub⟩ := processItems_ok_effects heq
              have resolve : StorageWrite.updateProductStock pid ns ∈ db1.writes →
                  StorageWrite.updateProductStock pid ns ∈ db.writes ∨
                  StorageWrite.updateProductStock pid ns
                    ∈ loopStockWrites (snapshotItems db oid) := by
                intro hmem
                rw [hW] at hmem
                simp only [List.mem_append] at hmem
                rcases hmem with (hmem | hmem) | hmem
                · exact Or.inl hmem
                · simp at hmem
                · exact Or.inr (hWsub _ hmem)
              split at hm
              · split at hm
                · exact resolve hm
                · split at hm
                  · exact resolve hm
                  · simp only [List.mem_append] at hm
                    rcases hm with hm | hm
                    · exact resolve hm
                    · simp at hm
              · split at hm
                · exact resolve hm
                · split at hm
                  · simp only [List.mem_append] at hm
                    rcases hm with hm | hm
                    · exact resolve hm
                    · simp at hm
                  · split at hm
                    · simp only [List.mem_append] at hm
                      rcases hm with hm | hm
                      · exact resolve hm
                      · simp at hm
                    · simp only [List.mem_append] at hm
                      rcases hm with (hm | hm) | hm
                      · exact resolve hm
                      · simp at hm
                      · simp at hm

/-- When the guard read, the snapshot read and the header insert all succeed
on an order with no prior journal entry, the run inserts the header row first:
however the rest of the run fares, the header is in the store, every later
write of the run comes after the header write in the trace, and a run that
returns `false` has not inserted any inventory movements. -/
theorem rsj_after_header (faults : List Nat) (today : String) (oid : Int)
    (db : DB) (c : Nat) (o1 : OrderRow) (os : List OrderRow)
    (hno : db.journal_entries.filter (fun j => j.order_id == oid) = [])
    (hord : db.orders.filter (fun o => o.id == oid) = o1 :: os)
    (h0 : ¬ faults.contains c) (h1 : ¬ faults.contains (c + 1))
    (h2 : ¬ faults.contains (c + 1 + 1)) :
    (record_sales_journal faults today oid db c).2.1.journal_entries =
      db.journal_entries ++
        [⟨db.next_journal_id, oid, today,
          "Jurnal Penjualan Tunai Order ID: " ++ toString oid, o1.user_id, "REGULAR"⟩] ∧
    (∃ W, (record_sales_journal faults today oid db c).2.1.writes =
      db.writes ++ [StorageWrite.insertJournalEntry oid] ++ W) ∧
    ((record_sales_journal faults today oid db c).1 = false →
      (record_sales_journal faults today oid db c).2.1.inventory_movements =
        db.inventory_movements) := by
  simp only [record_sales_journal, h0, h1, h2, hno, hord, if_false, Bool.false_eq_true,
             List.isEmpty_nil, Bool.not_true, ite_false, ite_true]
  split
  · rename_i db1 c1 heq
    obtain ⟨hje, hjl, hmv, hor, hni, W, hW, hWsub⟩ := processItems_err_effects heq
    exact ⟨hje, ⟨W, by simp [hW, List.append_assoc]⟩, fun _ => hmv⟩
  · rename_i ls1 ms1 db1 c1 heq
    obtain ⟨hje, hjl, hmv, hor, hni, W, hW, hWsub⟩ := processItems_ok_effects heq
    split
    · split
      · exact ⟨hje, ⟨W, by simp [hW, List.append_assoc]⟩, fun _ => hmv⟩
      · split
        · exact ⟨hje, ⟨W, by simp [hW, List.append_assoc]⟩, fun _ => hmv⟩
        · exact ⟨hje, ⟨W ++ [.insertInventoryMovements ms1],
                  by simp [hW, List.append_assoc]⟩,
                 fun h => absurd h (by simp)⟩
    · split
      · exact ⟨hje, ⟨W, by simp [hW, List.append_assoc]⟩, fun _ => hmv⟩
      · split
        · exact ⟨hje, ⟨W ++ [.insertJournalLines ls1],
                  by simp [hW, List.append_assoc]⟩, fun _ => hmv⟩
        · split
          · exact ⟨hje, ⟨W ++ [.insertJournalLines ls1],
                    by simp [hW, List.append_assoc]⟩, fun _ => hmv⟩
          · exact ⟨hje, ⟨W ++ [.insertJournalLines ls1, .insertInventoryMovements ms1],
                    by simp [hW, List.append_assoc]⟩,
                   fun h => absurd h (by simp)⟩

/-- Debit sums split over appended line lists. -/
theorem sumDebit_append (a b : List JournalLine) :
    sumDebit (a ++ b) = sumDebit a + sumDebit b := by
  simp [sumDebit]

/-- Credit sums split over appended line lists. -/
theorem sumCredit_append (a b : List JournalLine) :
    sumCredit (a ++ b) = sumCredit a + sumCredit b := by
  simp [sumCredit]

/-- The fixed cash and sales lines are balanced. -/
theorem cashLines_balance (jid : Nat) (total : Int) :
    sumDebit (cashLines jid total) = sumCredit (cashLines jid total) := by
  simp [sumDebit, sumCredit, cashLines]

/-- The loop line composition is append-homomorphic. -/
theorem loopLines_append (jid : Nat) (a b : List (OrderItemRow × Option Product)) :
    loopLines jid (a ++ b) = loopLines jid a ++ loopLines jid b := by
  induction a with
  | nil => simp [loopLines]
  | cons hd rest ih =>
    obtain ⟨item, pd⟩ := hd
    simp [loopLines, ih, List.append_assoc]

/-- The loop movement composition is append-homomorphic. -/
theorem loopMovements_append (today : String) (oid : Int)
    (a b : List (OrderItemRow × Option Product)) :
    loopMovements today oid (a ++ b) =
      loopMovements today oid a ++ loopMovements today oid b := by
  induction a with
  | nil => simp [loopMovements]
  | cons hd rest ih =>
    obtain ⟨item, pd⟩ := hd
    simp [loopMovements, ih, List.append_assoc]

/-- The loop stock-write composition is append-homomorphic. -/
theorem loopStockWrites_append (a b : List (OrderItemRow × Option Product)) :
    loopStockWrites (a ++ b) = loopStockWrites a ++ loopStockWrites b := by
  induction a with
  | nil => simp [loopStockWrites]
  | cons hd rest ih =>
    obtain ⟨item, pd⟩ := hd
    simp [loopStockWrites, ih, List.append_assoc]

/-- A stock update of the row found for a product id is observed by a
subsequent lookup of the same id. -/
theorem find_after_update (ps : List Product) (pid : Nat) (ns : Int) (p : Product)
    (h : ps.find? (fun pr => pr.id == pid) = some p) :
    (ps.map (fun pr => if pr.id == pid then { pr with stock := some ns } else pr)).find?
        (fun pr => pr.id == pid) = some { p with stock := some ns } := by
  induction ps with
  | nil => simp [List.find?] at h
  | cons a l ih =>
    by_cases ha : (a.id == pid) = true
    · simp only [List.find?_cons, ha] at h
      injection h with h
      subst h
      simp only [List.map_cons, List.find?_cons, ha]
      simp [ha]
    · have hb : (a.id == pid) = false := by simpa using ha
      simp only [List.find?_cons, hb] at h
      simp only [List.map_cons, List.find?_cons, hb]
      simpa [hb] using ih h

/-
  Concrete fixture stores used by the witnesses, mirroring the end-to-end
  scenario of the specification (order 42, product 7).
-/

/-- The order row of the end-to-end scenario. -/
def rowW : OrderRow := ⟨42, 100000, some 9, some "pending", none⟩

/-- Fixture store: order 42 with one line (product 7, quantity 2,
cost price 20000, stock 10). -/
def dbW : DB :=
  { journal_entries := [], orders := [rowW],
    order_items := [(42, ⟨7, 2⟩)],
    products := [⟨7, some 20000, some "1-1200", some "5-1100", some 10⟩],
    journal_lines := [], inventory_movements := [], next_journal_id := 1,
    writes := [] }

/-- Fixture store: order 1 with one line whose product is unresolvable. -/
def dbM : DB :=
  { journal_entries := [], orders := [⟨1, 100, none, none, none⟩],
    order_items := [(1, ⟨7, 2⟩)], products := [],
    journal_lines := [], inventory_movements := [], next_journal_id := 0,
    writes := [] }

/-- Fixture store: order 1 with two lines of the same product 7
(quantities 2 and 3, cost price 5, stock 10). -/
def dbS : DB :=
  { journal_entries := [], orders := [⟨1, 100, none, none, none⟩],
    order_items := [(1, ⟨7, 2⟩), (1, ⟨7, 3⟩)],
    products := [⟨7, some 5, some "1-1200", some "5-1100", some 10⟩],
    journal_lines := [], inventory_movements := [], next_journal_id := 0,
    writes := [] }

/-- An empty fixture store. -/
def dbE : DB := ⟨[], [], [], [], [], [], 0, []⟩

/-- C1: sequential idempotence of the settlement pipeline.  On a store with
no journal entry for the order and the order resolvable, a first run of
`record_sales_journal` succeeds; running it again returns `true` as a
success-no-op leaving the store completely unchanged (the duplicate guard
fires before any write), and the store holds exactly one JournalEntry for the
order, hence stock was decremented by exactly one run, not two. -/
theorem c1_sequential_idempotence (today : String) (oid : Int) (db : DB) (c : Nat)
    (o1 : OrderRow) (os : List OrderRow)
    (hno : db.journal_entries.filter (fun j => j.order_id == oid) = [])
    (hord : db.orders.filter (fun o => o.id == oid) = o1 :: os) :
    ∃ db1 c1, record_sales_journal [] today oid db c = (true, db1, c1) ∧
      record_sales_journal [] today oid db1 c1 = (true, db1, c1 + 1) ∧
      (db1.journal_entries.filter (fun j => j.order_id == oid)).length = 1 := by
  obtain ⟨c', hrun⟩ := rsj_success today oid db c o1 os hno hord
  refine ⟨rsjSuccessDB today oid db o1, c', hrun, ?_, ?_⟩
  · apply rsj_guard_hit
    · simp
    · simp [rsjSuccessDB, List.filter_append, hno]
  · simp [rsjSuccessDB, List.filter_append, hno]

/-- Witness for C1 at the fixture store. -/
theorem c1_witness :
    ∃ db1 c1, record_sales_journal [] "2024-01-01" 42 dbW 0 = (true, db1, c1) ∧
      record_sales_journal [] "2024-01-01" 42 db1 c1 = (true, db1, c1 + 1) ∧
      (db1.journal_entries.filter (fun j => j.order_id == 42)).length = 1 :=
  c1_sequential_idempotence "2024-01-01" 42 dbW 0 rowW [] (by decide) (by decide)

/-- C2: balance invariant.  A successful run appends to `journal_lines` a
block of lines, all carrying the id of the JournalEntry it produced, whose
total debit equals its total credit — for every order snapshot (any lines,
quantities and cost prices). -/
theorem c2_balance_invariant (today : String) (oid : Int) (db : DB) (c : Nat)
    (o1 : OrderRow) (os : List OrderRow)
    (hno : db.journal_entries.filter (fun j => j.order_id == oid) = [])
    (hord : db.orders.filter (fun o => o.id == oid) = o1 :: os) :
    ∃ db1 c1 L, record_sales_journal [] today oid db c = (true, db1, c1) ∧
      db1.journal_lines = db.journal_lines ++ L ∧
      (∀ l ∈ L, l.journal_id = db.next_journal_id) ∧
      sumDebit L = sumCredit L := by
  obtain ⟨c', hrun⟩ := rsj_success today oid db c o1 os hno hord
  refine ⟨rsjSuccessDB today oid db o1, c',
    cashLines db.next_journal_id o1.total_amount ++
      loopLines db.next_journal_id (snapshotItems db oid), hrun, rfl, ?_, ?_⟩
  · intro l hl
    rcases List.mem_append.mp hl with hl | hl
    · simp only [cashLines, List.mem_cons, List.not_mem_nil, or_false] at hl
      rcases hl with h | h <;> subst h <;> rfl
    · exact loopLines_jid _ _ l hl
  · rw [sumDebit_append, sumCredit_append, cashLines_balance, loopLines_balance]

/-- Witness for C2 at the fixture store. -/
theorem c2_witness :
    ∃ db1 c1 L, record_sales_journal [] "2024-01-01" 42 dbW 0 = (true, db1, c1) ∧
      db1.journal_lines = dbW.journal_lines ++ L ∧
      (∀ l ∈ L, l.journal_id = dbW.next_journal_id) ∧
      sumDebit L = sumCredit L :=
  c2_balance_invariant "2024-01-01" 42 dbW 0 rowW [] (by decide) (by decide)

/-- C3: status mapping of the webhook handler.  With a resolvable identifier:
provider status "capture" or "settlement" maps to order status "settle" and
invokes the journal pipeline, whose result becomes `journal_processed`;
"deny", "expire" or "cancel" maps to "failed" with no journal call; any other
status value is written through unchanged as the order status, and the
resulting store differs from the initial one only in the `orders` table and
the trace — no journal or inventory side effects. -/
theorem c3_status_mapping (today : String) (p : Payload) (db : DB) (c : Nat)
    (oid : Int)
    (hne : (extract_order_id p).isEmpty = false)
    (hpy : pyInt (extract_order_id p) = some oid) :
    ((p.transaction_status = some "capture" ∨ p.transaction_status = some "settlement") →
      ∃ jr db1 c1, record_sales_journal [] today oid db c = (jr, db1, c1) ∧
        midtrans_notification [] today p db c =
          (.ok jr, orderUpdatedDB db1 oid (some "settle") p.transaction_id, c1 + 1)) ∧
    ((p.transaction_status = some "deny" ∨ p.transaction_status = some "expire" ∨
        p.transaction_status = some "cancel") →
      midtrans_notification [] today p db c =
        (.ok false, orderUpdatedDB db oid (some "failed") p.transaction_id, c + 1)) ∧
    (p.transaction_status ≠ some "capture" → p.transaction_status ≠ some "settlement" →
      p.transaction_status ≠ some "deny" → p.transaction_status ≠ some "expire" →
      p.transaction_status ≠ some "cancel" →
      midtrans_notification [] today p db c =
        (.ok false, orderUpdatedDB db oid p.transaction_status p.transaction_id, c + 1) ∧
      (orderUpdatedDB db oid p.transaction_status p.transaction_id).journal_entries =
        db.journal_entries ∧
      (orderUpdatedDB db oid p.transaction_status p.transaction_id).journal_lines =
        db.journal_lines ∧
      (orderUpdatedDB db oid p.transaction_status p.transaction_id).inventory_movements =
        db.inventory_movements ∧
      (orderUpdatedDB db oid p.transaction_status p.transaction_id).products =
        db.products) := by
  refine ⟨?_, ?_, ?_⟩
  · rintro (hts | hts) <;>
    · refine ⟨(record_sales_journal [] today oid db c).1,
        (record_sales_journal [] today oid db c).2.1,
        (record_sales_journal [] today oid db c).2.2, rfl, ?_⟩
      simp [midtrans_notification, hne, hpy, hts, update_order_step,
            List.contains, List.elem_nil]
  · rintro (hts | hts | hts) <;>
      simp [midtrans_notification, hne, hpy, hts, update_order_step,
            List.contains, List.elem_nil]
  · intro n1 n2 n3 n4 n5
    refine ⟨?_, rfl, rfl, rfl, rfl⟩
    simp [midtrans_notification, hne, hpy, update_order_step, Bool.or_eq_true,
          beq_iff_eq, n1, n2, n3, n4, n5, List.contains, List.elem_nil]

/-- Witness for C3 at the fixture store, status "settlement". -/
theorem c3_witness :
    ∃ jr db1 c1,
      record_sales_journal [] "2024-01-01" 42 dbW 0 = (jr, db1, c1) ∧
      midtrans_notification [] "2024-01-01"
          ⟨some "42-1700000000", some "settlement", some "TX9"⟩ dbW 0 =
        (.ok jr, orderUpdatedDB db1 42 (some "settle") (some "TX9"), c1 + 1) :=
  (c3_status_mapping "2024-01-01" ⟨some "42-1700000000", some "settlement", some "TX9"⟩
    dbW 0 42 (by decide) (by decide)).1 (Or.inr rfl)

/-- C4: stock floor.  Every product-stock update issued by a run of the
pipeline (under any fault schedule) that is not a leftover of the prior trace
writes, for some snapshot line of the order, the value
max 0 (snapshot stock - quantity sold) — in particular never a negative
stock. -/
theorem c4_stock_floor (faults : List Nat) (today : String) (oid : Int) (db : DB)
    (c : Nat) (pid : Nat) (ns : Int)
    (hnew : StorageWrite.updateProductStock pid ns ∉ db.writes)
    (hm : StorageWrite.updateProductStock pid ns
            ∈ (record_sales_journal faults today oid db c).2.1.writes) :
    0 ≤ ns ∧
    ∃ ip ∈ snapshotItems db oid, pid = ip.1.product_id ∧
      ns = max 0 (itemStock ip.2 - ip.1.quantity) := by
  rcases rsj_stock_update_mem faults today oid db c pid ns hm with h | h
  · exact absurd h hnew
  · obtain ⟨ip, hip, hq, hpd, hpid, hns⟩ := loopStockWrites_mem _ pid ns h
    subst hns
    exact ⟨by rw [itemNewStock_eq_max]; exact le_max_left _ _,
           ip, hip, hpid, itemNewStock_eq_max _ _⟩

/-- Witness for C4 at the fixture store (stock 10, quantity 2, write 8). -/
theorem c4_witness :
    0 ≤ (8 : Int) ∧
    ∃ ip ∈ snapshotItems dbW 42, 7 = ip.1.product_id ∧
      (8 : Int) = max 0 (itemStock ip.2 - ip.1.quantity) :=
  c4_stock_floor [] "2024-01-01" 42 dbW 0 7 8 (by decide) (by decide)

/-- C5: accounting is decoupled from the status update.  For a notification
with a resolvable identifier and a settle-mapped status, whatever boolean the
journal pipeline returned (success or failure) under any fault schedule, the
handler responds ok with that boolean and issues the order update as the
terminal write after all journal writes, setting the status to "settle" and
the provider transaction reference on the matching order rows. -/
theorem c5_status_update_decoupled (faults : List Nat) (today : String) (p : Payload)
    (db : DB) (c : Nat) (oid : Int) (jr : Bool) (db1 : DB) (c1 : Nat)
    (hne : (extract_order_id p).isEmpty = false)
    (hpy : pyInt (extract_order_id p) = some oid)
    (hset : p.transaction_status = some "capture" ∨
      p.transaction_status = some "settlement")
    (hrsj : record_sales_journal faults today oid db c = (jr, db1, c1))
    (hupd : ¬ faults.contains c1) :
    midtrans_notification faults today p db c =
      (.ok jr, orderUpdatedDB db1 oid (some "settle") p.transaction_id, c1 + 1) ∧
    (orderUpdatedDB db1 oid (some "settle") p.transaction_id).writes =
      db1.writes ++ [StorageWrite.updateOrder oid (some "settle") p.transaction_id] ∧
    ∀ o ∈ (orderUpdatedDB db1 oid (some "settle") p.transaction_id).orders,
      o.id = oid → o.status = some "settle" ∧ o.midtrans_order_id = p.transaction_id := by
  refine ⟨?_, rfl, ?_⟩
  · have hupdm : c1 ∉ faults := by simpa using hupd
    rcases hset with hts | hts <;>
      simp [midtrans_notification, hne, hpy, hts, hrsj, update_order_step, hupd, hupdm]
  · intro o ho hoid
    simp only [orderUpdatedDB, List.mem_map] at ho
    obtain ⟨o0, ho0, rfl⟩ := ho
    by_cases h : (o0.id == oid) = true
    · simp [h]
    · rw [if_neg h] at hoid ⊢
      exact absurd (by simpa using hoid) (by simpa using h)

/-- Witness for C5: fault schedule [2] makes the header insert raise, the
pipeline returns false, the status update still happens. -/
theorem c5_witness :
    midtrans_notification [2] "2024-01-01"
        ⟨some "42-1700000000", some "capture", some "TX9"⟩ dbW 0 =
      (.ok false, orderUpdatedDB dbW 42 (some "settle") (some "TX9"), 3 + 1) ∧
    (orderUpdatedDB dbW 42 (some "settle") (some "TX9")).writes =
      dbW.writes ++ [StorageWrite.updateOrder 42 (some "settle") (some "TX9")] ∧
    ∀ o ∈ (orderUpdatedDB dbW 42 (some "settle") (some "TX9")).orders,
      o.id = 42 → o.status = some "settle" ∧ o.midtrans_order_id = some "TX9" :=
  c5_status_update_decoupled [2] "2024-01-01"
    ⟨some "42-1700000000", some "capture", some "TX9"⟩ dbW 0 42 false dbW 3
    (by decide) (by decide) (Or.inl rfl) (by decide) (by decide)

/-- C6 (documenting the code bug): the identifier is extracted as the prefix
before the first separator (the whole string when there is none), but a
missing or non-numeric identifier is surfaced as HTTP 500, not 400 — the
`HTTPException(400)` raised inside the `try` block is swallowed by the
blanket `except` and replaced by the generic 500. -/
theorem c6_bad_order_id_gives_500 :
    midtrans_notification [] "2024-01-01" ⟨none, some "settlement", some "TX1"⟩ dbE 0 =
      (.httpError 500, dbE, 0) ∧
    midtrans_notification [] "2024-01-01" ⟨some "abc", some "pending", some "TX1"⟩ dbE 0 =
      (.httpError 500, dbE, 0) ∧
    extract_order_id ⟨some "15-1699999999", some "settlement", some "TX1"⟩ = "15".toList ∧
    extract_order_id ⟨some "42", some "settlement", some "TX1"⟩ = "42".toList := by
  refine ⟨?_, ?_, ?_, ?_⟩ <;> decide

/-- C7 counterexample: on an order line whose product cannot be resolved the
pipeline still appends an InventoryMovement for that line (with unit cost 0),
contrary to the claim that no movement record is produced. -/
theorem c7_counterexample :
    (record_sales_journal [] "2024-01-01" 1 dbM 0).1 = true ∧
    (record_sales_journal [] "2024-01-01" 1 dbM 0).2.1.inventory_movements =
      [⟨7, "2024-01-01", "ISSUE", -2, 0, "ORDER-1"⟩] := by
  refine ⟨?_, ?_⟩ <;> decide

/-- C7 amended: an unresolvable product line does not crash the pipeline, the
run completes and posts the journal with the cash and sales lines balanced;
the line contributes no COGS journal lines and no stock update, but it does
contribute one InventoryMovement (with unit cost 0) when its quantity is
positive. -/
theorem c7_missing_product_amended (today : String) (oid : Int) (db : DB) (c : Nat)
    (o1 : OrderRow) (os : List OrderRow)
    (hno : db.journal_entries.filter (fun j => j.order_id == oid) = [])
    (hord : db.orders.filter (fun o => o.id == oid) = o1 :: os) :
    (∃ c', record_sales_journal [] today oid db c =
      (true, rsjSuccessDB today oid db o1, c')) ∧
    sumDebit (cashLines db.next_journal_id o1.total_amount ++
        loopLines db.next_journal_id (snapshotItems db oid)) =
      sumCredit (cashLines db.next_journal_id o1.total_amount ++
        loopLines db.next_journal_id (snapshotItems db oid)) ∧
    ∀ pre item post,
      snapshotItems db oid = pre ++ ((item, (none : Option Product)) :: post) →
      loopLines db.next_journal_id (snapshotItems db oid) =
        loopLines db.next_journal_id pre ++ loopLines db.next_journal_id post ∧
      loopStockWrites (snapshotItems db oid) =
        loopStockWrites pre ++ loopStockWrites post ∧
      (0 < item.quantity →
        loopMovements today oid (snapshotItems db oid) =
          loopMovements today oid pre ++
            (⟨item.product_id, today, "ISSUE", -item.quantity, 0,
              "ORDER-" ++ toString oid⟩ :: loopMovements today oid post)) := by
  obtain ⟨c', hrun⟩ := rsj_success today oid db c o1 os hno hord
  refine ⟨⟨c', hrun⟩, ?_, ?_⟩
  · rw [sumDebit_append, sumCredit_append, cashLines_balance, loopLines_balance]
  · intro pre item post hsnap
    rw [hsnap]
    refine ⟨?_, ?_, ?_⟩
    · rw [loopLines_append]
      simp [loopLines, itemCost]
    · rw [loopStockWrites_append]
      simp [loopStockWrites]
    · intro hq
      rw [loopMovements_append]
      simp [loopMovements, hq, itemCost]

/-- Witness for the amended C7 at the missing-product fixture store. -/
theorem c7_witness :
    (∃ c', record_sales_journal [] "2024-01-01" 1 dbM 0 =
      (true, rsjSuccessDB "2024-01-01" 1 dbM ⟨1, 100, none, none, none⟩, c')) ∧
    sumDebit (cashLines dbM.next_journal_id 100 ++
        loopLines dbM.next_journal_id (snapshotItems dbM 1)) =
      sumCredit (cashLines dbM.next_journal_id 100 ++
        loopLines dbM.next_journal_id (snapshotItems dbM 1)) ∧
    ∀ pre item post,
      snapshotItems dbM 1 = pre ++ ((item, (none : Option Product)) :: post) →
      loopLines dbM.next_journal_id (snapshotItems dbM 1) =
        loopLines dbM.next_journal_id pre ++ loopLines dbM.next_journal_id post ∧
      loopStockWrites (snapshotItems dbM 1) =
        loopStockWrites pre ++ loopStockWrites post ∧
      (0 < item.quantity →
        loopMovements "2024-01-01" 1 (snapshotItems dbM 1) =
          loopMovements "2024-01-01" 1 pre ++
            (⟨item.product_id, "2024-01-01", "ISSUE", -item.quantity, 0,
              "ORDER-" ++ toString (1 : Int)⟩ :: loopMovements "2024-01-01" 1 post)) :=
  c7_missing_product_amended "2024-01-01" 1 dbM 0 ⟨1, 100, none, none, none⟩ []
    (by decide) (by decide)

/-- C8 counterexample: on an order with two lines of the same product the
run issues the two per-line stock updates inside the loop, before the two
batch inserts, and issues two updates for a single distinct product — the
write trace is header, stock update, stock update, journal-lines batch,
movement batch, refuting batch-inserts-first and once-per-distinct-product. -/
theorem c8_counterexample :
    (record_sales_journal [] "2024-01-01" 1 dbS 0).2.1.writes =
      [.insertJournalEntry 1,
       .updateProductStock 7 8,
       .updateProductStock 7 7,
       .insertJournalLines
         [⟨0, some "1-1100", 100, 0⟩, ⟨0, some "4-1100", 0, 100⟩,
          ⟨0, some "5-1100", 10, 0⟩, ⟨0, some "1-1200", 0, 10⟩,
          ⟨0, some "5-1100", 15, 0⟩, ⟨0, some "1-1200", 0, 15⟩],
       .insertInventoryMovements
         [⟨7, "2024-01-01", "ISSUE", -2, 5, "ORDER-1"⟩,
          ⟨7, "2024-01-01", "ISSUE", -3, 5, "ORDER-1"⟩]] := by
  decide

/-- C8 amended: the run first inserts the journal header, then issues one
stock update per order line with positive quantity and resolved product
inside the loop, and only after the loop batch-inserts all JournalLines and
then all InventoryMovements as two bulk writes. -/
theorem c8_amended_order_of_writes (today : String) (oid : Int) (db : DB) (c : Nat)
    (o1 : OrderRow) (os : List OrderRow)
    (hno : db.journal_entries.filter (fun j => j.order_id == oid) = [])
    (hord : db.orders.filter (fun o => o.id == oid) = o1 :: os) :
    ∃ dbF c', record_sales_journal [] today oid db c = (true, dbF, c') ∧
      dbF.writes = db.writes ++ [StorageWrite.insertJournalEntry oid]
        ++ loopStockWrites (snapshotItems db oid)
        ++ [StorageWrite.insertJournalLines
              (cashLines db.next_journal_id o1.total_amount ++
                loopLines db.next_journal_id (snapshotItems db oid))]
        ++ (if (loopMovements today oid (snapshotItems db oid)).isEmpty then []
            else [StorageWrite.insertInventoryMovements
                    (loopMovements today oid (snapshotItems db oid))]) := by
  obtain ⟨c', hrun⟩ := rsj_success today oid db c o1 os hno hord
  exact ⟨rsjSuccessDB today oid db o1, c', hrun, rfl⟩

/-- Witness for the amended C8 at the two-line fixture store. -/
theorem c8_witness :
    ∃ dbF c', record_sales_journal [] "2024-01-01" 1 dbS 0 = (true, dbF, c') ∧
      dbF.writes = dbS.writes ++ [StorageWrite.insertJournalEntry 1]
        ++ loopStockWrites (snapshotItems dbS 1)
        ++ [StorageWrite.insertJournalLines
              (cashLines dbS.next_journal_id 100 ++
                loopLines dbS.next_journal_id (snapshotItems dbS 1))]
        ++ (if (loopMovements "2024-01-01" 1 (snapshotItems dbS 1)).isEmpty then []
            else [StorageWrite.insertInventoryMovements
                    (loopMovements "2024-01-01" 1 (snapshotItems dbS 1))]) :=
  c8_amended_order_of_writes "2024-01-01" 1 dbS 0 ⟨1, 100, none, none, none⟩ []
    (by decide) (by decide)

/-- C9: repeated product across lines loses decrements.  When the same
product appears in two order lines, each stock update is computed from the
shared snapshot stock value and the second write overwrites the first, so
the persisted stock is snapshot stock minus only the second line quantity
(floored at zero) — strictly more than snapshot stock minus the sum of both
quantities — even though one InventoryMovement is appended per line. -/
theorem c9_repeated_product_last_write_wins (today : String) (oid : Int) (db : DB)
    (c : Nat) (o1 : OrderRow) (os : List OrderRow) (l1 l2 : OrderItemRow)
    (pid : Nat) (p : Product) (s : Int)
    (hno : db.journal_entries.filter (fun j => j.order_id == oid) = [])
    (hord : db.orders.filter (fun o => o.id == oid) = o1 :: os)
    (hitems : db.order_items.filter (fun q => q.fst == oid) = [(oid, l1), (oid, l2)])
    (hp1 : l1.product_id = pid) (hp2 : l2.product_id = pid)
    (hfind : db.products.find? (fun pr => pr.id == pid) = some p)
    (hstock : p.stock = some s)
    (hq1 : 0 < l1.quantity) (hq2 : 0 < l2.quantity) :
    ∃ dbF c', record_sales_journal [] today oid db c = (true, dbF, c') ∧
      dbF.products.find? (fun pr => pr.id == pid) =
        some { p with stock := some (max 0 (s - l2.quantity)) } ∧
      (loopMovements today oid (snapshotItems db oid)).length = 2 ∧
      s - (l1.quantity + l2.quantity) < max 0 (s - l2.quantity) := by
  have hsnap : snapshotItems db oid = [(l1, some p), (l2, some p)] := by
    simp [snapshotItems, hitems, hp1, hp2, hfind]
  obtain ⟨c', hrun⟩ := rsj_success today oid db c o1 os hno hord
  refine ⟨rsjSuccessDB today oid db o1, c', hrun, ?_, ?_, ?_⟩
  · show (applyStockWrites (loopStockWrites (snapshotItems db oid)) db.products).find?
        (fun pr => pr.id == pid) = _
    rw [hsnap]
    have hls : loopStockWrites [(l1, some p), (l2, some p)] =
        [.updateProductStock pid (itemNewStock l1 (some p)),
         .updateProductStock pid (itemNewStock l2 (some p))] := by
      simp [loopStockWrites, hq1, hq2, hp1, hp2]
    rw [hls]
    have hmax : itemNewStock l2 (some p) = max 0 (s - l2.quantity) := by
      rw [itemNewStock_eq_max]
      simp [itemStock, hstock]
    have hstep1 := find_after_update db.products pid (itemNewStock l1 (some p)) p hfind
    have hstep2 := find_after_update _ pid (itemNewStock l2 (some p)) _ hstep1
    rw [← hmax]
    exact hstep2
  · rw [hsnap]; simp [loopMovements, hq1, hq2]
  · have hle := le_max_right 0 (s - l2.quantity)
    omega

/-- Witness for C9 at the two-line fixture store: stock 10, quantities 2 and
3; the persisted stock is 7, not 5. -/
theorem c9_witness :
    ∃ dbF c', record_sales_journal [] "2024-01-01" 1 dbS 0 = (true, dbF, c') ∧
      dbF.products.find? (fun pr => pr.id == 7) =
        some { (⟨7, some 5, some "1-1200", some "5-1100", some 10⟩ : Product) with
               stock := some (max 0 (10 - 3)) } ∧
      (loopMovements "2024-01-01" 1 (snapshotItems dbS 1)).length = 2 ∧
      (10 : Int) - (2 + 3) < max 0 (10 - 3) :=
  c9_repeated_product_last_write_wins "2024-01-01" 1 dbS 0
    ⟨1, 100, none, none, none⟩ [] ⟨7, 2⟩ ⟨7, 3⟩ 7
    ⟨7, some 5, some "1-1200", some "5-1100", some 10⟩ 10
    (by decide) (by decide) (by decide) rfl rfl (by decide) rfl
    (by decide) (by decide)

/-- C10: the header insert precedes the line batch, the movement batch and
the stock updates; once the guard read, the snapshot read and the header
insert have succeeded, the header row is in the store whatever happens later
and is the first write of the run, a run that returns false has written no
inventory movements, and every subsequent invocation for the same order
(whose guard read succeeds) returns true as a duplicate no-op with the store
untouched — so writes missing from a failed run are never made up. -/
theorem c10_partial_failure_permanent_noop (faults : List Nat) (today : String)
    (oid : Int) (db : DB) (c : Nat) (o1 : OrderRow) (os : List OrderRow)
    (hno : db.journal_entries.filter (fun j => j.order_id == oid) = [])
    (hord : db.orders.filter (fun o => o.id == oid) = o1 :: os)
    (h0 : ¬ faults.contains c) (h1 : ¬ faults.contains (c + 1))
    (h2 : ¬ faults.contains (c + 1 + 1)) :
    (record_sales_journal faults today oid db c).2.1.journal_entries =
      db.journal_entries ++
        [⟨db.next_journal_id, oid, today,
          "Jurnal Penjualan Tunai Order ID: " ++ toString oid, o1.user_id,
          "REGULAR"⟩] ∧
    (∃ W, (record_sales_journal faults today oid db c).2.1.writes =
      db.writes ++ [StorageWrite.insertJournalEntry oid] ++ W) ∧
    ((record_sales_journal faults today oid db c).1 = false →
      (record_sales_journal faults today oid db c).2.1.inventory_movements =
        db.inventory_movements) ∧
    (∀ faults2 c2, ¬ faults2.contains c2 →
      record_sales_journal faults2 today oid
          (record_sales_journal faults today oid db c).2.1 c2 =
        (true, (record_sales_journal faults today oid db c).2.1, c2 + 1)) := by
  obtain ⟨hje, hW, hmv⟩ := rsj_after_header faults today oid db c o1 os hno hord h0 h1 h2
  refine ⟨hje, hW, hmv, ?_⟩
  intro faults2 c2 hf2
  apply rsj_guard_hit faults2 today oid _ c2 hf2
  rw [hje]
  simp [List.filter_append]

/-- Witness for C10: fault schedule [4] makes the journal-lines batch insert
raise after the header insert; the run returns false and any later clean run
is a no-op returning true. -/
theorem c10_witness :
    (record_sales_journal [4] "2024-01-01" 42 dbW 0).1 = false ∧
    (∀ faults2 c2, ¬ faults2.contains c2 →
      record_sales_journal faults2 "2024-01-01" 42
          (record_sales_journal [4] "2024-01-01" 42 dbW 0).2.1 c2 =
        (true, (record_sales_journal [4] "2024-01-01" 42 dbW 0).2.1, c2 + 1)) :=
  ⟨by decide,
   (c10_partial_failure_permanent_noop [4] "2024-01-01" 42 dbW 0 rowW []
     (by decide) (by decide) (by decide) (by decide) (by decide)).2.2.2⟩
